import Mathlib

/-!
Verification of the MCPServer repository (TypeScript) against its
natural-language specification.

The development shallow-embeds the protocol dispatch layer and the tool
handlers of the repository's server variants:

* `Simple`      — `src/simple-server.ts` (`SimpleMCPServer`)
* `Index`       — the SDK-based server (`index.ts`, shipped here unnamed),
                  i.e. the `CallToolRequestSchema` handler
* `Standalone`  — `src/standalone-profile-server.ts` (`StandaloneProfileServer`)
* `Enhanced`    — `src/enhanced-profile-server.ts`
* `Part002`     — the Express/OAuth server (unnamed part_002), `verifyToken`

External runtime services (the JavaScript expression evaluator reached via
`eval`/`Function`, the clock, `JSON.parse`) are modelled as explicit
parameters; everything the repository itself computes is translated
directly from the source.
-/

namespace MCP

/-- A JSON-RPC `id` value as it appears in request/response envelopes:
a number, a string, or JSON `null`.  An *absent* `id` field is modelled
as `Option.none` at the use site (JavaScript `undefined`, which
`JSON.stringify` omits), distinct from `RpcId.jnull` (JSON `null`). -/
inductive RpcId where
  | num (n : Int)
  | str (s : String)
  | jnull
deriving DecidableEq, Repr

/-- The character class of JavaScript regex `\s` (whitespace), used by the
calculator sanitizer `/[^0-9+\-*\/().\s]/g`. -/
def isJsWhitespace (c : Char) : Bool :=
  c = ' ' || c = '\t' || c = '\n' || c = '\r' || c = '\u000B' || c = '\u000C' ||
  c = '\u00A0' || c = '\u1680' || (0x2000 ≤ c.val && c.val ≤ 0x200A) ||
  c = '\u2028' || c = '\u2029' || c = '\u202F' || c = '\u205F' ||
  c = '\u3000' || c = '\uFEFF'

/-- Characters kept by the calculator sanitizer
`expression.replace(/[^0-9+\-*\/().\s]/g, "")`: digits, the four
operators, parentheses, dot and whitespace. -/
def isAllowedChar (c : Char) : Bool :=
  ('0' ≤ c && c ≤ '9') || c = '+' || c = '-' || c = '*' || c = '/' ||
  c = '(' || c = ')' || c = '.' || isJsWhitespace c

/-- `expression.replace(/[^0-9+\-*\/().\s]/g, "")` — deletes every
disallowed character, keeping the rest in order. -/
def sanitize (s : String) : String :=
  String.mk (s.data.filter isAllowedChar)

/-- `line.trim()` truthiness from the stdio loops (`if (line.trim())`):
true iff the line contains at least one non-whitespace character. -/
def jsTrimNonempty (line : String) : Bool :=
  line.data.any (fun c => !isJsWhitespace c)

/-- The result of JavaScript evaluation of an arithmetic expression
string, as far as the handlers inspect it: a (here integral) number, one
of the non-finite numbers, or `undefined` (the value of `eval("")`). -/
inductive JsVal where
  | num (n : Int)
  | inf
  | negInf
  | nan
  | undef
deriving DecidableEq, Repr

/-- JavaScript template-literal rendering `${result}` of an evaluation
result. -/
def renderJs : JsVal → String
  | .num n => toString n
  | .inf => "Infinity"
  | .negInf => "-Infinity"
  | .nan => "NaN"
  | .undef => "undefined"

/-- `Number.isFinite(result)`. -/
def isFiniteJs : JsVal → Bool
  | .num _ => true
  | _ => false

/-- The external JavaScript evaluator (`eval` in simple-server,
`Function(...)()` in index.ts): given the expression text it either
returns a value or throws (modelled by `Except.error` carrying the
thrown message).  It is a parameter of the embedding: the repository
delegates to the runtime here. -/
def Evaluator : Type := String → Except String JsVal

/-- The `arguments` object of a `tools/call` request, restricted to the
string-typed argument names the handlers actually read. -/
structure Args where
  text : Option String
  expression : Option String
  profileId : Option String
deriving DecidableEq, Repr

/-- The `params` object of a request, restricted to the fields the
dispatchers destructure (`name`, `arguments`, `uri`). -/
structure Params where
  name : Option String
  arguments : Option Args
  uri : Option String
deriving DecidableEq, Repr

/-- A request envelope (`MCPRequest` in the TypeScript sources).
`id = none` models an absent field; `params = none` models
absent-or-null `params` (both make destructuring throw). -/
structure MCPRequest where
  jsonrpc : String
  id : Option RpcId
  method : String
  params : Option Params
deriving DecidableEq, Repr

/-- A JSON-RPC error object. -/
structure ErrObj where
  code : Int
  message : String
  data : Option String
deriving DecidableEq, Repr

/-- One project entry of a profile record. -/
structure Project where
  name : String
  status : String
  completion : Nat
deriving DecidableEq, Repr

/-- The `ProfileData` record shared by the profile server variants. -/
structure ProfileData where
  id : String
  name : String
  email : String
  department : String
  role : String
  joinDate : String
  avatar : String
  skills : List String
  projects : List Project
deriving DecidableEq, Repr

/-- Generated document bodies (JSON.stringify dumps, HTML templates).
The spec places this templating out of scope, so the text is modelled
structurally by what it is generated from rather than by its exact
characters; no claim inspects these strings. -/
inductive GenText where
  | serverInfoJson (uptime : String)
  | serverCapsJson (tools : List (String × String)) (resources : List (String × String))
  | profileJson (p : ProfileData)
  | profileHTML (p : ProfileData)
  | protoJunkJson (key : String)
deriving DecidableEq, Repr

/-- One content block of a tool result (`type: "text"` or
`type: "resource"`). -/
inductive ContentBlock where
  | text (t : String)
  | resource (uri : String) (mimeType : String) (body : GenText)
deriving DecidableEq, Repr

/-- One entry of a `resources/read` result's `contents` array. -/
structure ContentItem where
  uri : String
  mimeType : String
  text : GenText
deriving DecidableEq, Repr

/-- A tool descriptor as listed by `tools/list` (the descriptive
`inputSchema` field is not inspected by any claim and is elided). -/
structure ToolDesc where
  name : String
  description : String
deriving DecidableEq, Repr

/-- A resource descriptor as listed by `resources/list`. -/
structure ResourceDesc where
  uri : String
  mimeType : String
  name : String
  description : String
deriving DecidableEq, Repr

/-- The `result` member of a response envelope, by shape. -/
inductive ResultVal where
  | initResult (protocolVersion : String) (serverName : String) (serverVersion : String)
  | toolsList (tools : List ToolDesc)
  | resourcesList (resources : List ResourceDesc)
  | toolContent (blocks : List ContentBlock)
  | readContents (items : List ContentItem)
deriving DecidableEq, Repr

/-- A response envelope (`MCPResponse` in the TypeScript sources).
`none` in `id`/`result`/`error` models an absent field. -/
structure MCPResponse where
  jsonrpc : String
  id : Option RpcId
  result : Option ResultVal
  error : Option ErrObj
deriving DecidableEq, Repr

/-- A thrown JavaScript exception reaching a dispatcher catch-all
(carrying `error.message`). -/
structure JsErr where
  msg : String
deriving DecidableEq, Repr

/-- The V8 message for destructuring `name` out of undefined `params`
(`const { name, arguments: args } = params`); quotes elided. -/
def destructureNameMsg : String :=
  "Cannot destructure property name of params as it is undefined."

/-- The V8 message for destructuring `uri` out of undefined `params`
(`const { uri } = params`); quotes elided. -/
def destructureUriMsg : String :=
  "Cannot destructure property uri of params as it is undefined."

/-- `${name}` rendering of a possibly-undefined string. -/
def showOptStr : Option String → String
  | some s => s
  | none => "undefined"

/-- `args?.text || ""` / `args?.expression || ""`: absent object, absent
field and empty string all collapse to `""` (empty string is falsy, and
`"" || ""` is `""`). -/
def argOrEmpty (f : Args → Option String) (args : Option Args) : String :=
  match args with
  | some a => match f a with
    | some s => s
    | none => ""
  | none => ""

/-! ## `Simple` — `src/simple-server.ts` (`SimpleMCPServer`) -/

namespace Simple

/-- The external services `simple-server.ts` reaches at request time:
`eval` (the evaluator), `new Date().toISOString()` (the clock), and
`process.uptime()` (rendered into the info resource). -/
structure Ext where
  ev : Evaluator
  now : String
  uptime : String

/-- `SimpleMCPServer.tools` (names and descriptions; the descriptive
`inputSchema` is elided). -/
def tools : List ToolDesc :=
  [⟨"echo", "Echo back the provided text"⟩,
   ⟨"get_current_time", "Get the current date and time"⟩,
   ⟨"calculate", "Perform basic arithmetic calculations"⟩]

/-- `SimpleMCPServer.resources`. -/
def resources : List ResourceDesc :=
  [⟨"server://info", "application/json", "Server Information",
    "Information about this MCP server"⟩,
   ⟨"server://capabilities", "application/json", "Server Capabilities",
    "Capabilities supported by this MCP server"⟩]

/-- The `calculate` branch of `SimpleMCPServer.handleToolCall`:
`expression = args?.expression || ""` is sanitized and handed to `eval`;
the surrounding try/catch turns an evaluator throw into a `-32603`
"Calculation error" *response* (not an exception), and a returned value
(whatever it is, finite or not) into a success envelope rendering
`expression = result`. -/
def calcResponse (id : Option RpcId) (expression : String) (ev : Evaluator) : MCPResponse :=
  match ev (sanitize expression) with
  | .ok v =>
    ⟨"2.0", id, some (.toolContent [.text (expression ++ " = " ++ renderJs v)]), none⟩
  | .error m =>
    ⟨"2.0", id, none, some ⟨-32603, "Calculation error", some m⟩⟩

/-- `SimpleMCPServer.handleToolCall`.  Destructuring `params` throws
when `params` is absent (`Except.error`); otherwise each tool branch
returns a response envelope. -/
def handleToolCall (ext : Ext) (params : Option Params) (id : Option RpcId) :
    Except JsErr MCPResponse :=
  match params with
  | none => .error ⟨destructureNameMsg⟩
  | some p =>
    match p.name with
    | some "echo" =>
      .ok ⟨"2.0", id,
        some (.toolContent [.text ("Echo: " ++ argOrEmpty Args.text p.arguments)]), none⟩
    | some "get_current_time" =>
      .ok ⟨"2.0", id,
        some (.toolContent [.text ("Current time: " ++ ext.now)]), none⟩
    | some "calculate" =>
      .ok (calcResponse id (argOrEmpty Args.expression p.arguments) ext.ev)
    | other =>
      .ok ⟨"2.0", id, none, some ⟨-32601, "Unknown tool: " ++ showOptStr other, none⟩⟩

/-- `SimpleMCPServer.handleResourceRead`.  Destructuring `uri` out of an
absent `params` throws; unknown uris yield `-32602`. -/
def handleResourceRead (ext : Ext) (params : Option Params) (id : Option RpcId) :
    Except JsErr MCPResponse :=
  match params with
  | none => .error ⟨destructureUriMsg⟩
  | some p =>
    match p.uri with
    | some "server://info" =>
      .ok ⟨"2.0", id,
        some (.readContents
          [⟨"server://info", "application/json", .serverInfoJson ext.uptime⟩]), none⟩
    | some "server://capabilities" =>
      .ok ⟨"2.0", id,
        some (.readContents
          [⟨"server://capabilities", "application/json",
            .serverCapsJson (tools.map fun t => (t.name, t.description))
              (resources.map fun r => (r.uri, r.name))⟩]), none⟩
    | u =>
      .ok ⟨"2.0", id, none, some ⟨-32602, "Unknown resource: " ++ showOptStr u, none⟩⟩

/-- The body of `SimpleMCPServer.handleRequest`: the method switch,
with exceptions still propagating (`Except.error`). -/
def dispatchE (ext : Ext) (req : MCPRequest) : Except JsErr MCPResponse :=
  match req.method with
  | "initialize" =>
    .ok ⟨"2.0", req.id,
      some (.initResult "2024-11-05" "mcp-server-connection" "1.0.0"), none⟩
  | "tools/list" => .ok ⟨"2.0", req.id, some (.toolsList tools), none⟩
  | "resources/list" => .ok ⟨"2.0", req.id, some (.resourcesList resources), none⟩
  | "tools/call" => handleToolCall ext req.params req.id
  | "resources/read" => handleResourceRead ext req.params req.id
  | m => .ok ⟨"2.0", req.id, none, some ⟨-32601, "Method not found: " ++ m, none⟩⟩

/-- `SimpleMCPServer.handleRequest`: the method switch wrapped in the
catch-all that converts any thrown exception into a `-32603`
"Internal error" envelope carrying `error.message` in `data`. -/
def handleRequest (ext : Ext) (req : MCPRequest) : MCPResponse :=
  match dispatchE ext req with
  | .ok r => r
  | .error e => ⟨"2.0", req.id, none, some ⟨-32603, "Internal error", some e.msg⟩⟩

/-- The per-line body of `SimpleMCPServer.startStdioServer`: blank lines
(falsy `line.trim()`) produce no response; otherwise `JSON.parse` (the
external `parse` parameter) either yields a request that is dispatched,
or throws, in which case the catch emits the fixed parse-error envelope
(which carries *no* `id` member at all). -/
def processLine (ext : Ext) (parse : String → Except String MCPRequest)
    (line : String) : Option MCPResponse :=
  if jsTrimNonempty line then
    match parse line with
    | .ok req => some (handleRequest ext req)
    | .error m => some ⟨"2.0", none, none, some ⟨-32700, "Parse error", some m⟩⟩
  else
    none

/-- The `for (const line of lines)` loop: one optional response per
line, in order; an error on one line never stops the later lines. -/
def processLines (ext : Ext) (parse : String → Except String MCPRequest)
    (lines : List String) : List MCPResponse :=
  lines.filterMap (processLine ext parse)

end Simple

/-! ## `Index` — the SDK-based server (`index.ts`, unnamed part_001) -/

namespace Index

/-- `McpError` of the SDK: the thrown typed failure of a tool handler.
SDK error codes: `InvalidParams = -32602`, `MethodNotFound = -32601`,
`InternalError = -32603`. -/
structure McpError where
  code : Int
  message : String
deriving DecidableEq, Repr

/-- `sanitizedExpression.includes(sub)`. -/
def includesSub (s : String) (sub : String) : Bool :=
  decide (List.IsInfix sub.data s.data)

/-- The inner try of the `calculate` branch of the
`CallToolRequestSchema` handler: the character-set check, the
`__`/`constructor` check, the evaluation and the finiteness check; every
throw is caught and rewrapped as
`McpError(InternalError, "Calculation error: " + message)`. -/
def calcEval (ev : Evaluator) (expression : String) :
    Except McpError (List ContentBlock) :=
  let sanitizedExpression := sanitize expression
  if sanitizedExpression ≠ expression then
    .error ⟨-32603,
      "Calculation error: Invalid characters in expression. Only numbers, +, -, *, /, (, ), and spaces allowed."⟩
  else if includesSub sanitizedExpression "__" || includesSub sanitizedExpression "constructor" then
    .error ⟨-32603, "Calculation error: Invalid expression"⟩
  else
    match ev sanitizedExpression with
    | .error m => .error ⟨-32603, "Calculation error: " ++ m⟩
    | .ok result =>
      if !isFiniteJs result then
        .error ⟨-32603, "Calculation error: Result is not a finite number"⟩
      else
        .ok [.text (expression ++ " = " ++ renderJs result)]

/-- The `CallToolRequestSchema` handler of `index.ts`: switch on the
tool name; `echo` and `calculate` reject falsy arguments (absent *or*
empty string) with `InvalidParams`; unknown tools yield
`MethodNotFound`.  The handler communicates failure by throwing
`McpError` (`Except.error`). -/
def callTool (ev : Evaluator) (now : String) (name : Option String)
    (args : Option Args) : Except McpError (List ContentBlock) :=
  match name with
  | some "echo" =>
    match args.bind Args.text with
    | none => .error ⟨-32602, "Text parameter is required"⟩
    | some t =>
      if t = "" then .error ⟨-32602, "Text parameter is required"⟩
      else .ok [.text ("Echo: " ++ t)]
  | some "get_current_time" => .ok [.text ("Current time: " ++ now)]
  | some "calculate" =>
    match args.bind Args.expression with
    | none => .error ⟨-32602, "Expression parameter is required"⟩
    | some e =>
      if e = "" then .error ⟨-32602, "Expression parameter is required"⟩
      else calcEval ev e
  | other => .error ⟨-32601, "Unknown tool: " ++ showOptStr other⟩

end Index

/-! ## Shared profile fixtures (`standalone-profile-server.ts`
`getProfileSync` and `enhanced-profile-server.ts` `PROFILE_DATABASE`
hold the same two records). -/

/-- The record stored under key `"default"`. -/
def defaultProfile : ProfileData :=
  { id := "EMP001"
    name := "Sarah Johnson"
    email := "sarah.johnson@techcorp.com"
    department := "Engineering"
    role := "Senior Full Stack Developer"
    joinDate := "2021-08-15"
    avatar := "https://images.unsplash.com/photo-1494790108755-2616b612b47c?w=150&h=150&fit=crop&crop=face"
    skills := ["TypeScript", "React", "Node.js", "AWS Lambda", "DynamoDB",
               "GraphQL", "Docker", "Terraform"]
    projects := [⟨"MCP Server Implementation", "In Progress", 85⟩,
                 ⟨"Cloud Infrastructure Migration", "Completed", 100⟩,
                 ⟨"API Performance Optimization", "In Progress", 60⟩,
                 ⟨"Frontend Component Library", "Planning", 25⟩] }

/-- The record stored under key `"admin"`. -/
def adminProfile : ProfileData :=
  { id := "ADM001"
    name := "Michael Chen"
    email := "michael.chen@techcorp.com"
    department := "Operations"
    role := "DevOps Engineer"
    joinDate := "2020-03-10"
    avatar := "https://images.unsplash.com/photo-1507003211169-0a1dd7228f2d?w=150&h=150&fit=crop&crop=face"
    skills := ["Kubernetes", "AWS", "Terraform", "Jenkins", "Prometheus",
               "Grafana", "Python", "Bash"]
    projects := [⟨"Kubernetes Cluster Setup", "Completed", 100⟩,
                 ⟨"CI/CD Pipeline Enhancement", "In Progress", 70⟩,
                 ⟨"Monitoring Dashboard", "Completed", 100⟩] }

/-- The profile collection keyed by id (an object literal in both
sources, modelled as an association list). -/
def profilesTable : List (String × ProfileData) :=
  [("default", defaultProfile), ("admin", adminProfile)]

/-- `someString || fallback` on an optional environment variable /
argument: absent and empty string are falsy. -/
def jsOrElse (v : Option String) (fallback : String) : String :=
  match v with
  | some s => if s = "" then fallback else s
  | none => fallback

/-- The own property keys of `Object.prototype` (ES2023 §20.1.3 plus
the Annex B.2.2 legacy accessors, as present in V8).  A JavaScript
member lookup `obj[key]` on a plain object literal finds these on the
prototype chain when `key` is not an own key, and every one of them is
truthy (a function, or for `__proto__` the prototype object itself). -/
def objectPrototypeKeys : List String :=
  ["constructor", "toString", "toLocaleString", "valueOf", "hasOwnProperty",
   "isPrototypeOf", "propertyIsEnumerable", "__defineGetter__", "__defineSetter__",
   "__lookupGetter__", "__lookupSetter__", "__proto__"]

/-- The value of `profiles[profileId] || profiles["default"]`
(`PROFILE_DATABASE[profileId] || PROFILE_DATABASE.default` in the
enhanced variant): either a genuine profile record, or a truthy value
inherited from `Object.prototype` — the latter is *not* a
`ProfileData`, and every later access to its `skills`/`projects`
members misbehaves. -/
inductive ProfileLookup where
  | record (p : ProfileData)
  | protoJunk (key : String)
deriving DecidableEq, Repr

/-- `profiles[profileId] || profiles["default"]` with JavaScript member
lookup semantics: an own key yields its record; a key of
`Object.prototype` yields the inherited truthy value, which being
truthy *bypasses* the `||` fallback; only a genuinely absent key
(`undefined`, falsy) falls back to the record under the literal own key
`"default"`. -/
def jsProfileGet (profileId : String) : ProfileLookup :=
  match profilesTable.lookup profileId with
  | some p => .record p
  | none =>
    if profileId ∈ objectPrototypeKeys then .protoJunk profileId
    else .record defaultProfile

/-- The V8 `TypeError` message thrown by `profile.skills.map(...)` when
`profile` is a value inherited from `Object.prototype` (so
`profile.skills` is `undefined`); V8 puts quotes around the member
name, elided here. -/
def readingMapTypeError : String :=
  "Cannot read properties of undefined (reading map)"

/-! ## `Standalone` — `src/standalone-profile-server.ts` -/

namespace Standalone

/-- The configuration the `StandaloneProfileServer` constructor reads
from environment variables (each `process.env.X || fallback`). -/
structure Config where
  serverName : String
  serverVersion : String
  defaultProfileId : String
deriving DecidableEq, Repr

/-- The constructor:
`serverName = env.MCP_SERVER_NAME || "profile-mcp-server"` etc. -/
def Config.ofEnv (name ver dflt : Option String) : Config :=
  ⟨jsOrElse name "profile-mcp-server", jsOrElse ver "1.0.0", jsOrElse dflt "default"⟩

/-- `StandaloneProfileServer.tools`. -/
def tools : List ToolDesc :=
  [⟨"get_profile",
    "Fetch and display user profile information from AWS with a beautiful HTML interface"⟩]

/-- `StandaloneProfileServer.resources`. -/
def resources : List ResourceDesc :=
  [⟨"profile://data", "application/json", "Profile Data Resource",
    "Raw profile data from AWS API"⟩,
   ⟨"profile://html", "text/html", "Profile HTML Resource",
    "Formatted HTML profile display"⟩]

/-- `getProfileSync`: `profiles[profileId] || profiles["default"]` — a
genuine lookup miss falls back to the record under the literal key
`"default"` (not the configured default id), while a key of
`Object.prototype` yields the inherited truthy value and skips the
fallback. -/
def getProfileSync (profileId : String) : ProfileLookup :=
  jsProfileGet profileId

/-- The text summary block `handleGetProfile` builds for a profile. -/
def profileSummary (p : ProfileData) : String :=
  "✅ Successfully fetched profile for " ++ p.name ++
  "\n🔗 Profile ID: " ++ p.id ++
  "\n📊 Projects: " ++ toString p.projects.length ++
  "\n🎯 Skills: " ++ toString p.skills.length

/-- The success envelope `handleGetProfile` returns: a text summary
plus a resource block with the generated HTML. -/
def profileSuccess (p : ProfileData) (id : Option RpcId) : MCPResponse :=
  ⟨"2.0", id,
    some (.toolContent
      [.text (profileSummary p),
       .resource "profile://html" "text/html" (.profileHTML p)]), none⟩

/-- `generateProfileHTML`: out-of-scope templating on a genuine record
(modelled structurally as `GenText.profileHTML`); on a value inherited
from `Object.prototype` its interpolation `profile.skills.map(...)`
throws a `TypeError` (`profile.skills` is `undefined`), modelled as
`Except.error` carrying the V8 message. -/
def generateProfileHTML : ProfileLookup → Except String GenText
  | .record p => .ok (.profileHTML p)
  | .protoJunk _ => .error readingMapTypeError

/-- The envelope built by `handleGetProfile`'s catch when
`generateProfileHTML` throws: `-32603`, "Failed to fetch profile", the
exception message in `data`. -/
def profileFetchError (id : Option RpcId) : MCPResponse :=
  ⟨"2.0", id, none, some ⟨-32603, "Failed to fetch profile", some readingMapTypeError⟩⟩

/-- `handleGetProfile`:
`profileId = args?.profileId || this.defaultProfileId`, then the
`getProfileSync` lookup, then `generateProfileHTML`.  For a genuine
record the try body completes and the success envelope is returned; for
an inherited `Object.prototype` value `generateProfileHTML` throws and
the catch returns the `-32603` "Failed to fetch profile" envelope. -/
def handleGetProfile (cfg : Config) (args : Option Args) (id : Option RpcId) :
    MCPResponse :=
  let profileId := jsOrElse (args.bind Args.profileId) cfg.defaultProfileId
  match getProfileSync profileId with
  | .record p => profileSuccess p id
  | .protoJunk _ => profileFetchError id

/-- `StandaloneProfileServer.handleToolCall`: destructuring absent
`params` throws; the only tool is `get_profile`. -/
def handleToolCall (cfg : Config) (params : Option Params) (id : Option RpcId) :
    Except JsErr MCPResponse :=
  match params with
  | none => .error ⟨destructureNameMsg⟩
  | some p =>
    match p.name with
    | some "get_profile" => .ok (handleGetProfile cfg p.arguments id)
    | other =>
      .ok ⟨"2.0", id, none, some ⟨-32601, "Unknown tool: " ++ showOptStr other, none⟩⟩

/-- The `JSON.stringify(profile, null, 2)` body of the
`profile://data` resource: a structured dump of a record, or the
serialized form of an inherited `Object.prototype` value
(`JSON.stringify` does not throw on those). -/
def profileDataJson : ProfileLookup → GenText
  | .record p => .profileJson p
  | .protoJunk k => .protoJunkJson k

/-- `StandaloneProfileServer.handleResourceRead` (the `uri`
destructuring sits before its try, so absent `params` throws to the
dispatcher catch-all; the try/catch around the switch turns a
`generateProfileHTML` throw on the `profile://html` branch into the
`-32603` "Failed to read resource" envelope). -/
def handleResourceRead (cfg : Config) (params : Option Params) (id : Option RpcId) :
    Except JsErr MCPResponse :=
  match params with
  | none => .error ⟨destructureUriMsg⟩
  | some p =>
    match p.uri with
    | some "profile://data" =>
      .ok ⟨"2.0", id,
        some (.readContents
          [⟨"profile://data", "application/json",
            profileDataJson (getProfileSync cfg.defaultProfileId)⟩]), none⟩
    | some "profile://html" =>
      match generateProfileHTML (getProfileSync cfg.defaultProfileId) with
      | .ok html =>
        .ok ⟨"2.0", id,
          some (.readContents [⟨"profile://html", "text/html", html⟩]), none⟩
      | .error m =>
        .ok ⟨"2.0", id, none, some ⟨-32603, "Failed to read resource", some m⟩⟩
    | u =>
      .ok ⟨"2.0", id, none, some ⟨-32602, "Unknown resource: " ++ showOptStr u, none⟩⟩

/-- The method switch of `StandaloneProfileServer.handleRequest`. -/
def dispatchE (cfg : Config) (req : MCPRequest) : Except JsErr MCPResponse :=
  match req.method with
  | "initialize" =>
    .ok ⟨"2.0", req.id,
      some (.initResult "2024-11-05" cfg.serverName cfg.serverVersion), none⟩
  | "tools/list" => .ok ⟨"2.0", req.id, some (.toolsList tools), none⟩
  | "resources/list" => .ok ⟨"2.0", req.id, some (.resourcesList resources), none⟩
  | "tools/call" => handleToolCall cfg req.params req.id
  | "resources/read" => handleResourceRead cfg req.params req.id
  | m => .ok ⟨"2.0", req.id, none, some ⟨-32601, "Method not found: " ++ m, none⟩⟩

/-- `StandaloneProfileServer.handleRequest` with its catch-all. -/
def handleRequest (cfg : Config) (req : MCPRequest) : MCPResponse :=
  match dispatchE cfg req with
  | .ok r => r
  | .error e => ⟨"2.0", req.id, none, some ⟨-32603, "Internal error", some e.msg⟩⟩

/-- The per-line body of `StandaloneProfileServer.startStdioServer`
(same shape as the simple server's). -/
def processLine (cfg : Config) (parse : String → Except String MCPRequest)
    (line : String) : Option MCPResponse :=
  if jsTrimNonempty line then
    match parse line with
    | .ok req => some (handleRequest cfg req)
    | .error m => some ⟨"2.0", none, none, some ⟨-32700, "Parse error", some m⟩⟩
  else
    none

/-- The line loop of `startStdioServer`. -/
def processLines (cfg : Config) (parse : String → Except String MCPRequest)
    (lines : List String) : List MCPResponse :=
  lines.filterMap (processLine cfg parse)

end Standalone

/-- `authHeader.replace(/^Bearer\s+/i, "")`: when the header starts
with case-insensitive `Bearer` followed by at least one whitespace
character, the marker and the (greedy, maximal) whitespace run after it
are removed; otherwise the string is returned unchanged. -/
def stripBearer (h : String) : String :=
  let cs := h.data
  if ((cs.take 6).map Char.toLower) = "bearer".data &&
      (match cs.drop 6 with
       | c :: _ => isJsWhitespace c
       | [] => false) then
    String.mk ((cs.drop 6).dropWhile isJsWhitespace)
  else h

/-! ## `Enhanced` — `src/enhanced-profile-server.ts` -/

namespace Enhanced

/-- `verifyToken` of `enhanced-profile-server.ts`: with a header
present, the case-insensitive `Bearer ` run is stripped and the
remainder stored *unconditionally* — there is no emptiness check and no
check that stripping changed anything; only an absent header clears the
slot. -/
def verifyToken (authHeader : Option String) : Option String :=
  match authHeader with
  | some h => some (stripBearer h)
  | none => none

end Enhanced

/-! ## `Part002` — the Express/OAuth server (unnamed part_002) -/

namespace Part002

/-- `verifyToken` of part_002: absent header → no token; then
`token = authHeader.replace(/^Bearer\s+/i, "")`; a falsy (empty) token
or an unchanged string (the Bearer marker was absent) → no token;
otherwise the stripped token is stored.  Every path assigns the slot,
so the previous value is always overwritten. -/
def verifyToken (authHeader : Option String) : Option String :=
  match authHeader with
  | none => none
  | some h =>
    let token := stripBearer h
    if token = "" || token = h then none else some token

end Part002

/-! ## Concrete fixtures for witnesses and counterexamples -/

/-- A concrete external world for the simple server whose evaluator
returns `undefined` on every input — in particular on the empty string,
matching JavaScript, where `eval("")` is `undefined`. -/
def extW : Simple.Ext :=
  ⟨fun _ => .ok .undef, "2024-01-01T00:00:00.000Z", "0"⟩

/-- A concrete external world whose evaluator maps `"1/0"` to
`Infinity`, matching JavaScript division by zero, and everything else
to `undefined`. -/
def extInf : Simple.Ext :=
  ⟨fun s => if s = "1/0" then .ok .inf else .ok .undef,
   "2024-01-01T00:00:00.000Z", "0"⟩

/-- The evaluator of `extInf`, for use with the SDK handler. -/
def evInf : Evaluator := extInf.ev

/-- A concrete stand-in for `JSON.parse` that throws on every line,
with a fixed exception message. -/
def parseW : String → Except String MCPRequest :=
  fun _ => .error "Unexpected token"

/-- A concrete standalone-server configuration with all environment
variables unset (so `defaultProfileId = "default"`). -/
def cfgW : Standalone.Config := Standalone.Config.ofEnv none none none

/-- A `tools/call` request for the `calculate` tool with the given
expression argument and id `1`. -/
def calcRequest (e : String) : MCPRequest :=
  ⟨"2.0", some (.num 1), "tools/call", some ⟨some "calculate", some ⟨none, some e, none⟩, none⟩⟩

/-- A `tools/call` request for `echo` with no `arguments` object. -/
def echoNoArgsRequest : MCPRequest :=
  ⟨"2.0", some (.num 1), "tools/call", some ⟨some "echo", none, none⟩⟩

/-! ## Supporting lemmas -/

/-- A response envelope carries exactly one of `result`/`error`. -/
def resultXorError (r : MCPResponse) : Prop :=
  (r.result.isSome = true ∧ r.error = none) ∨
  (r.result = none ∧ r.error.isSome = true)

/-- Lift of `resultXorError` to a possibly-throwing handler result. -/
def okXor : Except JsErr MCPResponse → Prop
  | .ok r => resultXorError r
  | .error _ => True

/-- Lift of id-preservation to a possibly-throwing handler result. -/
def okId (i : Option RpcId) : Except JsErr MCPResponse → Prop
  | .ok r => r.id = i
  | .error _ => True

theorem simple_calcResponse_xor (i : Option RpcId) (e : String) (ev : Evaluator) :
    resultXorError (Simple.calcResponse i e ev) := by
  unfold Simple.calcResponse
  split <;> simp [resultXorError]

theorem simple_calcResponse_id (i : Option RpcId) (e : String) (ev : Evaluator) :
    (Simple.calcResponse i e ev).id = i := by
  unfold Simple.calcResponse
  split <;> simp

theorem simple_toolCall_okXor (ext : Simple.Ext) (p : Option Params) (i : Option RpcId) :
    okXor (Simple.handleToolCall ext p i) := by
  unfold Simple.handleToolCall
  repeat' split
  all_goals simp only [okXor]
  all_goals
    first
      | exact simple_calcResponse_xor _ _ _
      | simp [resultXorError]

theorem simple_resourceRead_okXor (ext : Simple.Ext) (p : Option Params) (i : Option RpcId) :
    okXor (Simple.handleResourceRead ext p i) := by
  unfold Simple.handleResourceRead
  repeat' split
  all_goals simp [okXor, resultXorError]

theorem simple_dispatchE_okXor (ext : Simple.Ext) (req : MCPRequest) :
    okXor (Simple.dispatchE ext req) := by
  unfold Simple.dispatchE
  repeat' split
  any_goals exact simple_toolCall_okXor _ _ _
  any_goals exact simple_resourceRead_okXor _ _ _
  all_goals simp [okXor, resultXorError]

theorem simple_handleRequest_xor (ext : Simple.Ext) (req : MCPRequest) :
    resultXorError (Simple.handleRequest ext req) := by
  have hx := simple_dispatchE_okXor ext req
  unfold Simple.handleRequest
  split
  next r h => rw [h] at hx; exact hx
  next e h => simp [resultXorError]

theorem standalone_getProfile_xor (cfg : Standalone.Config) (args : Option Args)
    (i : Option RpcId) : resultXorError (Standalone.handleGetProfile cfg args i) := by
  unfold Standalone.handleGetProfile
  dsimp only
  split <;>
    simp [resultXorError, Standalone.profileSuccess, Standalone.profileFetchError]

theorem standalone_toolCall_okXor (cfg : Standalone.Config) (p : Option Params)
    (i : Option RpcId) : okXor (Standalone.handleToolCall cfg p i) := by
  unfold Standalone.handleToolCall
  repeat' split
  all_goals simp only [okXor]
  all_goals
    first
      | exact standalone_getProfile_xor _ _ _
      | simp [resultXorError]

theorem standalone_resourceRead_okXor (cfg : Standalone.Config) (p : Option Params)
    (i : Option RpcId) : okXor (Standalone.handleResourceRead cfg p i) := by
  unfold Standalone.handleResourceRead
  repeat' split
  all_goals simp [okXor, resultXorError]

theorem standalone_dispatchE_okXor (cfg : Standalone.Config) (req : MCPRequest) :
    okXor (Standalone.dispatchE cfg req) := by
  unfold Standalone.dispatchE
  repeat' split
  any_goals exact standalone_toolCall_okXor _ _ _
  any_goals exact standalone_resourceRead_okXor _ _ _
  all_goals simp [okXor, resultXorError]

theorem standalone_handleRequest_xor (cfg : Standalone.Config) (req : MCPRequest) :
    resultXorError (Standalone.handleRequest cfg req) := by
  have hx := standalone_dispatchE_okXor cfg req
  unfold Standalone.handleRequest
  split
  next r h => rw [h] at hx; exact hx
  next e h => simp [resultXorError]

theorem simple_toolCall_okId (ext : Simple.Ext) (p : Option Params) (i : Option RpcId) :
    okId i (Simple.handleToolCall ext p i) := by
  unfold Simple.handleToolCall
  repeat' split
  all_goals simp only [okId]
  all_goals exact simple_calcResponse_id _ _ _

theorem simple_resourceRead_okId (ext : Simple.Ext) (p : Option Params) (i : Option RpcId) :
    okId i (Simple.handleResourceRead ext p i) := by
  unfold Simple.handleResourceRead
  repeat' split
  all_goals simp [okId]

theorem simple_dispatchE_okId (ext : Simple.Ext) (req : MCPRequest) :
    okId req.id (Simple.dispatchE ext req) := by
  unfold Simple.dispatchE
  repeat' split
  any_goals exact simple_toolCall_okId _ _ _
  any_goals exact simple_resourceRead_okId _ _ _
  all_goals simp [okId]

theorem simple_handleRequest_id (ext : Simple.Ext) (req : MCPRequest) :
    (Simple.handleRequest ext req).id = req.id := by
  have hx := simple_dispatchE_okId ext req
  unfold Simple.handleRequest
  split
  next r h => rw [h] at hx; exact hx
  next e h => rfl

/-! ## Claims -/

/-- C3: For every request envelope given to the dispatcher — every
method including unknown methods, and every error path — the returned
response envelope contains exactly one of the fields `result` and
`error`: never both, never neither.  (Both cited dispatchers:
`SimpleMCPServer.handleRequest` and
`StandaloneProfileServer.handleRequest`.) -/
theorem dispatch_result_xor_error :
    (∀ (ext : Simple.Ext) (req : MCPRequest),
        resultXorError (Simple.handleRequest ext req)) ∧
    (∀ (cfg : Standalone.Config) (req : MCPRequest),
        resultXorError (Standalone.handleRequest cfg req)) :=
  ⟨simple_handleRequest_xor, standalone_handleRequest_xor⟩

/-- C4: For every request that carries an `id`, the dispatcher's
response carries an `id` equal to the request's `id`, exactly and
type-preservingly (the `RpcId` value — number, string or null — is
returned unchanged). -/
theorem dispatch_echoes_id (ext : Simple.Ext) (req : MCPRequest) (i : RpcId)
    (h : req.id = some i) : (Simple.handleRequest ext req).id = some i := by
  rw [simple_handleRequest_id, h]

/-- Witness for C4 at a concrete request with numeric id `7`; the
response id is the *number* `7`, which is a different `RpcId` value
from the *string* `"7"`. -/
theorem dispatch_echoes_id_witness :
    (Simple.handleRequest extW ⟨"2.0", some (.num 7), "tools/list", none⟩).id =
      some (RpcId.num 7) ∧ RpcId.num 7 ≠ RpcId.str "7" :=
  ⟨dispatch_echoes_id extW ⟨"2.0", some (.num 7), "tools/list", none⟩ (.num 7) rfl,
   by decide⟩

/-- C9: For every `tools/call` or `resources/read` request whose
`params` field is entirely absent, the dispatcher returns an error
envelope with code `-32603` ("Internal error") carrying the underlying
cause (the destructuring exception message) in the `data` field — it is
not classified as `-32601`/`-32602` and the process does not crash. -/
theorem missing_params_internal_error (ext : Simple.Ext) (i : Option RpcId) :
    Simple.handleRequest ext ⟨"2.0", i, "tools/call", none⟩ =
      ⟨"2.0", i, none, some ⟨-32603, "Internal error", some destructureNameMsg⟩⟩ ∧
    Simple.handleRequest ext ⟨"2.0", i, "resources/read", none⟩ =
      ⟨"2.0", i, none, some ⟨-32603, "Internal error", some destructureUriMsg⟩⟩ :=
  ⟨rfl, rfl⟩

/-- C10: On the stream transport, every input line that is empty or
consists only of whitespace (falsy `line.trim()`, i.e.
`jsTrimNonempty line = false`) produces no response envelope at all and
is silently skipped; processing of the remaining lines is unchanged.
(Both cited loops.) -/
theorem blank_line_skipped (ext : Simple.Ext) (cfg : Standalone.Config)
    (parse : String → Except String MCPRequest) (line : String) (rest : List String)
    (h : jsTrimNonempty line = false) :
    Simple.processLine ext parse line = none ∧
    Simple.processLines ext parse (line :: rest) = Simple.processLines ext parse rest ∧
    Standalone.processLine cfg parse line = none ∧
    Standalone.processLines cfg parse (line :: rest) = Standalone.processLines cfg parse rest := by
  refine ⟨?_, ?_, ?_, ?_⟩ <;>
    simp [Simple.processLine, Simple.processLines, Standalone.processLine,
          Standalone.processLines, h]

/-- Witness for C10: the two-space line is skipped entirely and a
following line is still processed. -/
theorem blank_line_skipped_witness :
    Simple.processLine extW parseW "  " = none ∧
    Simple.processLines extW parseW ("  " :: ["x"]) = Simple.processLines extW parseW ["x"] ∧
    Standalone.processLine cfgW parseW "  " = none ∧
    Standalone.processLines cfgW parseW ("  " :: ["x"]) = Standalone.processLines cfgW parseW ["x"] :=
  blank_line_skipped extW cfgW parseW "  " ["x"] (by decide)

/-- C5 counterexample: the claim asserts the parse-error envelope's
`id` field is null.  In the code the envelope literal has *no* `id`
member at all (and `JSON.stringify` omits an absent member), so the
emitted envelope's id is absent (`none`), not JSON null
(`some RpcId.jnull`): at the concrete malformed line `"notjson"` the
emitted envelope has `id = none`. -/
theorem parse_error_id_absent_counterexample :
    (Simple.processLine extW parseW "notjson").map MCPResponse.id = some none ∧
    (Simple.processLine extW parseW "notjson").map MCPResponse.id ≠
      some (some RpcId.jnull) := by
  refine ⟨rfl, ?_⟩
  intro h
  simp [Simple.processLine, parseW, jsTrimNonempty] at h

/-- C5 (amended): on the stream transport, a non-blank line on which
`JSON.parse` throws yields exactly one error envelope — code `-32700`,
message "Parse error", the exception text in `data`, and *no* `id`
member (absent, rather than `id: null`) — and processing continues:
the remaining lines produce exactly the responses they would produce
on their own.  (Both cited loops.) -/
theorem parse_error_line_emits_envelope_and_continues
    (ext : Simple.Ext) (cfg : Standalone.Config)
    (parse : String → Except String MCPRequest) (line m : String) (rest : List String)
    (h1 : jsTrimNonempty line = true) (h2 : parse line = .error m) :
    Simple.processLines ext parse (line :: rest) =
      (⟨"2.0", none, none, some ⟨-32700, "Parse error", some m⟩⟩ : MCPResponse) ::
        Simple.processLines ext parse rest ∧
    Standalone.processLines cfg parse (line :: rest) =
      (⟨"2.0", none, none, some ⟨-32700, "Parse error", some m⟩⟩ : MCPResponse) ::
        Standalone.processLines cfg parse rest := by
  constructor <;>
    simp [Simple.processLines, Standalone.processLines, Simple.processLine,
          Standalone.processLine, h1, h2]

/-- Witness for C5 (amended) at the concrete malformed line
`"notjson"` followed by a further line that is still processed. -/
theorem parse_error_line_witness :
    Simple.processLines extW parseW ("notjson" :: ["x"]) =
      (⟨"2.0", none, none, some ⟨-32700, "Parse error", some "Unexpected token"⟩⟩ : MCPResponse) ::
        Simple.processLines extW parseW ["x"] ∧
    Standalone.processLines cfgW parseW ("notjson" :: ["x"]) =
      (⟨"2.0", none, none, some ⟨-32700, "Parse error", some "Unexpected token"⟩⟩ : MCPResponse) ::
        Standalone.processLines cfgW parseW ["x"] :=
  parse_error_line_emits_envelope_and_continues extW cfgW parseW "notjson"
    "Unexpected token" ["x"] (by decide) rfl

/-- If some character of `s` is outside the sanitizer's allow-list,
sanitizing changes the string. -/
theorem sanitize_ne_of_bad (s : String)
    (h : s.data.any (fun c => !isAllowedChar c) = true) : sanitize s ≠ s := by
  intro heq
  have hd : (sanitize s).data = s.data := congrArg String.data heq
  have hfil : s.data.filter isAllowedChar = s.data := hd
  have hall := List.filter_eq_self.mp hfil
  rcases List.any_eq_true.mp h with ⟨c, hc, hbad⟩
  have := hall c hc
  simp [this] at hbad

/-- C1 counterexample: in `simple-server.ts` the `calculate` handler
does *not* reject `"__proto__"` — the sanitizer silently deletes the
disallowed characters (leaving `""`), `eval("")` is `undefined` (the
evaluator of `extW` encodes this), and a *success* envelope
`"__proto__ = undefined"` is produced, with no error. -/
theorem calc_sanitizer_strips_counterexample :
    (Simple.handleRequest extW (calcRequest "__proto__")).result =
      some (.toolContent [.text "__proto__ = undefined"]) ∧
    (Simple.handleRequest extW (calcRequest "__proto__")).error = none :=
  ⟨rfl, rfl⟩

/-- C1 (amended): in the SDK-based server (`index.ts`), any `calculate`
call whose non-empty expression contains a character outside
`[0-9+\-*\/().\s]` fails with the invalid-characters `McpError` (code
`-32603`, the SDK's `InternalError`, wrapping the handler's typed
invalid-input failure) — and it does so for *every* evaluator, i.e.
before any evaluation of the expression is attempted; no content result
is produced.  The simple server instead strips the disallowed
characters and evaluates the remainder (see the counterexample). -/
theorem calc_rejects_disallowed_chars_sdk
    (ev : Evaluator) (now : String) (a : Args) (expr : String)
    (h0 : a.expression = some expr) (h1 : expr ≠ "")
    (h2 : expr.data.any (fun c => !isAllowedChar c) = true) :
    Index.callTool ev now (some "calculate") (some a) =
      .error ⟨-32603,
        "Calculation error: Invalid characters in expression. Only numbers, +, -, *, /, (, ), and spaces allowed."⟩ := by
  have hs := sanitize_ne_of_bad expr h2
  simp [Index.callTool, Index.calcEval, h0, h1, hs]

/-- Witness for C1 (amended) at the two concrete injection probes named
by the claim, `"__proto__"` and `"constructor"`. -/
theorem calc_rejects_disallowed_chars_sdk_witness :
    Index.callTool extW.ev "2024-01-01T00:00:00.000Z" (some "calculate")
        (some ⟨none, some "__proto__", none⟩) =
      .error ⟨-32603,
        "Calculation error: Invalid characters in expression. Only numbers, +, -, *, /, (, ), and spaces allowed."⟩ ∧
    Index.callTool extW.ev "2024-01-01T00:00:00.000Z" (some "calculate")
        (some ⟨none, some "constructor", none⟩) =
      .error ⟨-32603,
        "Calculation error: Invalid characters in expression. Only numbers, +, -, *, /, (, ), and spaces allowed."⟩ :=
  ⟨calc_rejects_disallowed_chars_sdk extW.ev "2024-01-01T00:00:00.000Z"
      ⟨none, some "__proto__", none⟩ "__proto__" rfl (by decide) (by decide),
   calc_rejects_disallowed_chars_sdk extW.ev "2024-01-01T00:00:00.000Z"
      ⟨none, some "constructor", none⟩ "constructor" rfl (by decide) (by decide)⟩

/-- C2 counterexample: in `simple-server.ts`, `calculate("1/0")` is not
rejected — `"1/0"` passes the sanitizer unchanged, JavaScript division
by zero yields `Infinity` (the evaluator of `extInf` encodes this), and
the handler returns a *success* envelope whose text contains
`Infinity`, with no error. -/
theorem calc_infinity_result_counterexample :
    (Simple.handleRequest extInf (calcRequest "1/0")).result =
      some (.toolContent [.text "1/0 = Infinity"]) ∧
    (Simple.handleRequest extInf (calcRequest "1/0")).error = none :=
  ⟨rfl, rfl⟩

/-- C2 (amended): in the SDK-based server (`index.ts`), a `calculate`
call whose expression passes the character and substring checks but
evaluates to a non-finite value fails with the `McpError`
"Calculation error: Result is not a finite number" (code `-32603`); no
result envelope carrying `Infinity`, `-Infinity` or `NaN` is ever
returned there.  The simple server instead propagates the non-finite
value in a success envelope (see the counterexample). -/
theorem calc_rejects_nonfinite_sdk
    (ev : Evaluator) (now : String) (a : Args) (expr : String) (v : JsVal)
    (h0 : a.expression = some expr) (h1 : expr ≠ "")
    (h2 : sanitize expr = expr)
    (h3 : Index.includesSub expr "__" = false)
    (h4 : Index.includesSub expr "constructor" = false)
    (h5 : ev expr = .ok v) (h6 : isFiniteJs v = false) :
    Index.callTool ev now (some "calculate") (some a) =
      .error ⟨-32603, "Calculation error: Result is not a finite number"⟩ := by
  simp [Index.callTool, Index.calcEval, h0, h1, h2, h3, h4, h5, h6]

/-- Witness for C2 (amended) at the concrete division by zero `"1/0"`,
whose JavaScript value is `Infinity`. -/
theorem calc_rejects_nonfinite_sdk_witness :
    Index.callTool evInf "2024-01-01T00:00:00.000Z" (some "calculate")
        (some ⟨none, some "1/0", none⟩) =
      .error ⟨-32603, "Calculation error: Result is not a finite number"⟩ :=
  calc_rejects_nonfinite_sdk evInf "2024-01-01T00:00:00.000Z"
    ⟨none, some "1/0", none⟩ "1/0" .inf rfl (by decide) (by decide)
    (by decide) (by decide) rfl rfl

/-- C6 counterexample: in `simple-server.ts` the `echo` handler never
fails — with the `text` argument entirely absent it substitutes the
empty string and returns the *success* block `"Echo: "` instead of a
missing-argument error. -/
theorem echo_missing_text_success_counterexample :
    (Simple.handleRequest extW echoNoArgsRequest).result =
      some (.toolContent [.text "Echo: "]) ∧
    (Simple.handleRequest extW echoNoArgsRequest).error = none :=
  ⟨rfl, rfl⟩

/-- C6 (amended): in the SDK-based server (`index.ts`), `echo` fails
with the `InvalidParams` `McpError` (code `-32602`,
"Text parameter is required") whenever `text` is absent *or* the empty
string (both are falsy), and otherwise returns exactly one text block
`"Echo: <text>"`.  In the simple server `echo` never fails: an absent
`text` yields the success block `"Echo: "` with the empty string
substituted. -/
theorem echo_behavior_by_variant :
    (∀ (ev : Evaluator) (now : String) (a : Option Args),
        a.bind Args.text = none ∨ a.bind Args.text = some "" →
        Index.callTool ev now (some "echo") a =
          .error ⟨-32602, "Text parameter is required"⟩) ∧
    (∀ (ev : Evaluator) (now : String) (a : Option Args) (t : String),
        a.bind Args.text = some t → t ≠ "" →
        Index.callTool ev now (some "echo") a = .ok [.text ("Echo: " ++ t)]) ∧
    (∀ (ext : Simple.Ext) (args : Option Args) (i : Option RpcId),
        Simple.handleRequest ext ⟨"2.0", i, "tools/call", some ⟨some "echo", args, none⟩⟩ =
          ⟨"2.0", i, some (.toolContent [.text ("Echo: " ++ argOrEmpty Args.text args)]), none⟩) := by
  refine ⟨?_, ?_, ?_⟩
  · intro ev now a h
    rcases h with h | h <;> simp [Index.callTool, h]
  · intro ev now a t h0 h1
    simp [Index.callTool, h0, h1]
  · intro ext args i
    rfl

/-- Witness for C6 (amended): absent `text` is rejected by the SDK
handler; `"hi"` echoes; and the simple server answers the same call
with the success block `"Echo: "`. -/
theorem echo_behavior_by_variant_witness :
    Index.callTool extW.ev "2024-01-01T00:00:00.000Z" (some "echo") none =
      .error ⟨-32602, "Text parameter is required"⟩ ∧
    Index.callTool extW.ev "2024-01-01T00:00:00.000Z" (some "echo")
        (some ⟨some "hi", none, none⟩) = .ok [.text "Echo: hi"] ∧
    Simple.handleRequest extW ⟨"2.0", some (.num 2), "tools/call", some ⟨some "echo", none, none⟩⟩ =
      ⟨"2.0", some (.num 2), some (.toolContent [.text "Echo: "]), none⟩ :=
  ⟨echo_behavior_by_variant.1 extW.ev "2024-01-01T00:00:00.000Z" none (Or.inl rfl),
   echo_behavior_by_variant.2.1 extW.ev "2024-01-01T00:00:00.000Z"
      (some ⟨some "hi", none, none⟩) "hi" rfl (by decide),
   echo_behavior_by_variant.2.2 extW none (some (.num 2))⟩

/-- C8 counterexample: in `enhanced-profile-server.ts` the middleware
does not set the slot to no-token when the Bearer marker is absent or
the remainder is empty: the header `"Basic abc"` is stored verbatim,
and `"Bearer "` (empty remainder) stores the empty string — neither
becomes `none`. -/
theorem token_slot_enhanced_counterexample :
    Enhanced.verifyToken (some "Basic abc") = some "Basic abc" ∧
    Enhanced.verifyToken (some "Bearer ") = some "" ∧
    Enhanced.verifyToken (some "Basic abc") ≠ none ∧
    Enhanced.verifyToken (some "Bearer ") ≠ none := by
  refine ⟨rfl, rfl, ?_, ?_⟩ <;> decide

/-- C8 (amended): the claimed token-slot behaviour holds of the
part_002 middleware (every path assigns the slot, so any previously
stored token is overwritten): absent header → no token; a header the
Bearer-stripping leaves unchanged (no `Bearer ` marker) → no token; an
empty remainder after stripping → no token; otherwise the stripped
remainder is stored.  In `enhanced-profile-server.ts` only the
absent-header case clears the slot (see the counterexample). -/
theorem token_slot_part002_behavior :
    Part002.verifyToken none = none ∧
    (∀ h : String, stripBearer h = h → Part002.verifyToken (some h) = none) ∧
    (∀ h : String, stripBearer h = "" → Part002.verifyToken (some h) = none) ∧
    (∀ (h t : String), stripBearer h = t → t ≠ "" → t ≠ h →
        Part002.verifyToken (some h) = some t) := by
  refine ⟨rfl, ?_, ?_, ?_⟩
  · intro h hs
    simp [Part002.verifyToken, hs]
  · intro h hs
    simp [Part002.verifyToken, hs]
  · intro h t hs h1 h2
    simp [Part002.verifyToken, hs, h1, h2]

/-- Witness for C8 (amended) at concrete headers: absent, no Bearer
marker, empty remainder, and a well-formed bearer token. -/
theorem token_slot_part002_behavior_witness :
    Part002.verifyToken none = none ∧
    Part002.verifyToken (some "Basic abc") = none ∧
    Part002.verifyToken (some "Bearer   ") = none ∧
    Part002.verifyToken (some "Bearer abc") = some "abc" :=
  ⟨token_slot_part002_behavior.1,
   token_slot_part002_behavior.2.1 "Basic abc" rfl,
   token_slot_part002_behavior.2.2.1 "Bearer   " rfl,
   token_slot_part002_behavior.2.2.2 "Bearer abc" "abc" rfl (by decide) (by decide)⟩

end MCP
